import Mathlib

/-!
Verification of the SRE-SENTINAL operations agent.

This file gives a shallow embedding, in Lean 4, of the parts of the
TypeScript source that the verified properties talk about:

* the Policy Engine (`src/policy/safety-check.step.ts`),
* the Infrastructure Simulator and the Prometheus client's health checks
  (`infrastructure-simulator.ts`, `prometheus-client.ts`),
* the Sandbox Monitor (`src/services/sandbox-monitor.ts`),
* the Rollback Manager (`src/services/rollback-manager.ts`),
* the GET manual-approval handler (`src/api/manual-approval.step.ts`).

Modelling conventions:

* JavaScript numbers are modelled as exact rationals (`Rat`); every
  comparison the program performs on them is on values where binary
  floating point and exact arithmetic agree.
* Wall-clock reads (`Date.now()`, `new Date().toISOString()`) and random
  draws (`Math.random()`) are passed in as explicit parameters.
* Stateful handlers are modelled as pure functions from the relevant
  slice of the key/value store (association lists keyed by incident id)
  to the updated store plus the list of emitted events.
-/

namespace Sentinal

/-- Model of JavaScript `String.prototype.toLowerCase` for the ASCII
strings this program compares (`Char.toLower` lower-cases ASCII letters). -/
def jsToLower (s : String) : String := ⟨s.data.map Char.toLower⟩

/-- Helper for `strIncludes`: does `s` start with `pat`? -/
def strStartsAux : List Char → List Char → Bool
  | _, [] => true
  | [], _ :: _ => false
  | a :: as, b :: bs => (a == b) && strStartsAux as bs

/-- Helper for `strIncludes`: does `pat` occur in `s` (as a contiguous run)? -/
def strIncludesAux (pat : List Char) : List Char → Bool
  | [] => pat.isEmpty
  | c :: cs => strStartsAux (c :: cs) pat || strIncludesAux pat cs

/-- Model of JavaScript `String.prototype.includes`: substring containment. -/
def strIncludes (s pat : String) : Bool := strIncludesAux pat.data s.data

/-! ## Policy Engine (`src/policy/safety-check.step.ts`) -/

/-- Risk levels of an RCA result (`riskLevel: z.enum(['low','medium','high'])`). -/
inductive RiskLevel
  | low
  | medium
  | high
deriving DecidableEq

/-- The string form of a risk level, as the zod schema carries it. -/
def RiskLevel.str : RiskLevel → String
  | .low => "low"
  | .medium => "medium"
  | .high => "high"

/-- The fields of `metadata` that downstream code reads
(`metadata?.alertType`, `metadata?.diskUsagePercent`); the zod schema
types `metadata` as an optional record of unknowns. -/
structure RcaMetadata where
  alertType : Option String
  diskUsagePercent : Option Rat
deriving DecidableEq

/-- `RCAResultSchema` of `safety-check.step.ts`. -/
structure RCAResult where
  incidentId : String
  summary : String
  rootCause : String
  proposedFix : String
  riskLevel : RiskLevel
  estimatedImpact : String
  timestamp : String
  metadata : Option RcaMetadata
deriving DecidableEq

/-- The policy-rules record loaded from state group `policy-rules`
(shape of `defaultRules` in `loadPolicyRules`). -/
structure PolicyRules where
  autoApproveThreshold : String
  requireApprovalFor : List String
  rejectFor : List String
  allowedActions : List String
  blockedActions : List String
deriving DecidableEq

/-- The seeded default policy rules (`defaultRules` in `loadPolicyRules`). -/
def defaultRules : PolicyRules :=
  { autoApproveThreshold := "low"
    requireApprovalFor := ["medium", "high"]
    rejectFor := []
    allowedActions := ["restart", "scale", "clear-cache", "update-config"]
    blockedActions := ["delete-data", "drop-database"] }

/-- The three possible policy decisions. -/
inductive PolicyAction
  | autoApprove
  | requireApproval
  | reject
deriving DecidableEq

/-- Return value of `evaluatePolicy`: `{ action, reason }`. -/
structure PolicyVerdict where
  action : PolicyAction
  reason : String
deriving DecidableEq

/-- `evaluatePolicy` of `safety-check.step.ts`, branch for branch:
(1) `metadata?.alertType === 'sandbox_disk_full'` forces require-approval;
(2) the first blocked action contained (case-insensitively) in the
proposed fix forces reject; (3) low risk with a low auto-approve
threshold auto-approves; (4) a risk level listed in `requireApprovalFor`
requires approval; (5) the default is require-approval. -/
def evaluatePolicy (rcaResult : RCAResult) (rules : PolicyRules) : PolicyVerdict :=
  if rcaResult.metadata.bind (fun m => m.alertType) = some "sandbox_disk_full" then
    { action := .requireApproval
      reason := "Sandbox cleanup always requires human approval for safety" }
  else
    match rules.blockedActions.find?
        (fun blockedAction =>
          strIncludes (jsToLower rcaResult.proposedFix) (jsToLower blockedAction)) with
    | some blockedAction =>
        { action := .reject
          reason := "Proposed fix contains blocked action: " ++ blockedAction }
    | none =>
      if rcaResult.riskLevel.str = "low" ∧ rules.autoApproveThreshold = "low" then
        { action := .autoApprove
          reason := "Low-risk fix meets auto-approval criteria" }
      else if rules.requireApprovalFor.contains rcaResult.riskLevel.str then
        { action := .requireApproval
          reason := "Risk level requires human approval per policy" }
      else
        { action := .requireApproval
          reason := "Default policy: require human approval" }

/-- The `policy-decisions` record the handler persists for every incident. -/
structure PolicyDecisionRecord where
  incidentId : String
  decision : PolicyAction
  reason : String
  riskLevel : RiskLevel
  evaluatedAt : String
  rcaSummary : String
  proposedFix : String
deriving DecidableEq

/-- The `approval-pending` record the handler creates on the
require-approval path. -/
structure PendingApprovalSeed where
  incidentId : String
  status : String
  requestedAt : String
  riskLevel : RiskLevel
  rcaSummary : String
  proposedFix : String
deriving DecidableEq

/-- The `policy-rejections` record the handler persists on the reject path. -/
structure RejectionRecord where
  incidentId : String
  reason : String
  rejectedAt : String
deriving DecidableEq

/-- Events the policy handler can emit. -/
inductive PolicyEmit
  | fixApproved (incidentId : String) (approvalType : String) (approvedBy : String)
      (approvedAt : String) (rcaResult : RCAResult)
  | approvalRequired (incidentId : String) (riskLevel : RiskLevel) (reason : String)
      (rcaResult : RCAResult) (requestedAt : String)
deriving DecidableEq

/-- Observable effects of one run of the policy handler: the state
writes it performs and the events it emits. -/
structure PolicyHandlerEffects where
  decisionRecord : PolicyDecisionRecord
  emitted : List PolicyEmit
  pendingApproval : Option PendingApprovalSeed
  rejection : Option RejectionRecord
deriving DecidableEq

/-- The `handler` of `safety-check.step.ts`: evaluates the policy,
always persists a `policy-decisions` record, then either emits
`fix.approved` (auto-approve), emits `approval.required` and writes an
`approval-pending` record (require-approval), or writes a
`policy-rejections` record and emits nothing (reject). The rules are
those `loadPolicyRules` returned (saved rules, or the seeded defaults);
`now` stands for the handler's `new Date().toISOString()` reads. -/
def policyHandler (now : String) (rules : PolicyRules) (rcaResult : RCAResult) :
    PolicyHandlerEffects :=
  let decision := evaluatePolicy rcaResult rules
  let decisionRecord : PolicyDecisionRecord :=
    { incidentId := rcaResult.incidentId
      decision := decision.action
      reason := decision.reason
      riskLevel := rcaResult.riskLevel
      evaluatedAt := now
      rcaSummary := rcaResult.summary
      proposedFix := rcaResult.proposedFix }
  if decision.action = .autoApprove then
    { decisionRecord := decisionRecord
      emitted := [.fixApproved rcaResult.incidentId "automatic" "policy-engine" now rcaResult]
      pendingApproval := none
      rejection := none }
  else if decision.action = .requireApproval then
    { decisionRecord := decisionRecord
      emitted := [.approvalRequired rcaResult.incidentId rcaResult.riskLevel
        decision.reason rcaResult now]
      pendingApproval := some
        { incidentId := rcaResult.incidentId
          status := "pending"
          requestedAt := now
          riskLevel := rcaResult.riskLevel
          rcaSummary := rcaResult.summary
          proposedFix := rcaResult.proposedFix }
      rejection := none }
  else
    { decisionRecord := decisionRecord
      emitted := []
      pendingApproval := none
      rejection := some
        { incidentId := rcaResult.incidentId
          reason := decision.reason
          rejectedAt := now } }

/-! ## Infrastructure simulator (`services/infrastructure-simulator.ts`)
and the Prometheus client's health checks (`services/prometheus-client.ts`) -/

/-- `AlertType` of `types/incidents.types.ts`. -/
inductive AlertType
  | high_memory
  | container_down
  | disk_full
  | network_latency
  | cpu_spike
  | sandbox_disk_full
deriving DecidableEq

/-- `Severity` of `types/incidents.types.ts`. -/
inductive Severity
  | low
  | medium
  | high
  | critical
deriving DecidableEq

/-- Container status values of `InfrastructureMetrics`. -/
inductive ContainerStatus
  | running
  | stopped
  | crashed
deriving DecidableEq

/-- One entry of `InfrastructureMetrics.containers`. -/
structure ContainerInfo where
  name : String
  status : ContainerStatus
  restartCount : Nat
deriving DecidableEq

/-- Memory slice of `InfrastructureMetrics`. -/
structure MemoryMetrics where
  used : Rat
  total : Rat
  percentage : Rat
deriving DecidableEq

/-- CPU slice of `InfrastructureMetrics`. -/
structure CpuMetrics where
  usage : Rat
deriving DecidableEq

/-- Disk slice of `InfrastructureMetrics`. -/
structure DiskMetrics where
  used : Rat
  total : Rat
  percentage : Rat
deriving DecidableEq

/-- Network slice of `InfrastructureMetrics`. -/
structure NetworkMetrics where
  latency : Rat
  errorRate : Rat
deriving DecidableEq

/-- `InfrastructureMetrics` of `types/incidents.types.ts`. -/
structure InfrastructureMetrics where
  memory : MemoryMetrics
  cpu : CpuMetrics
  disk : DiskMetrics
  containers : List ContainerInfo
  network : NetworkMetrics
deriving DecidableEq

/-- Health-check status. -/
inductive HealthStatus
  | healthy
  | unhealthy
deriving DecidableEq

/-- `HealthCheckResult` of `types/incidents.types.ts`. -/
structure HealthCheckResult where
  resource : String
  status : HealthStatus
  metric : String
  value : Rat
  threshold : Rat
  timestamp : String
deriving DecidableEq

/-- The simulator's base healthy metrics (`collectMetrics` before any
scenario is applied). -/
def baseMetrics : InfrastructureMetrics :=
  { memory := { used := 4096, total := 16384, percentage := 25 }
    cpu := { usage := 15 }
    disk := { used := 50, total := 500, percentage := 10 }
    containers :=
      [ { name := "web-server", status := .running, restartCount := 0 }
      , { name := "api-server", status := .running, restartCount := 0 }
      , { name := "worker-1", status := .running, restartCount := 0 }
      , { name := "redis-cache", status := .running, restartCount := 0 } ]
    network := { latency := 45, errorRate := 1/10 } }

/-- `InfrastructureSimulator.applyScenario`: per-scenario metric overrides. -/
def applyScenario (metrics : InfrastructureMetrics) (scenario : AlertType) :
    InfrastructureMetrics :=
  match scenario with
  | .high_memory =>
      { metrics with memory := { used := 13107, total := 16384, percentage := 80 } }
  | .container_down =>
      { metrics with containers := metrics.containers.map (fun c =>
          if c.name = "api-server" then { c with status := .crashed, restartCount := 3 }
          else c) }
  | .disk_full =>
      { metrics with disk := { used := 480, total := 500, percentage := 96 } }
  | .network_latency =>
      { metrics with network := { latency := 350, errorRate := 52/10 } }
  | .cpu_spike =>
      { metrics with cpu := { usage := 95 } }
  | .sandbox_disk_full =>
      { metrics with disk := { used := 110, total := 100, percentage := 110 } }

/-- `InfrastructureSimulator.collectMetrics`: the base metrics with the
active scenario (the simulator's one mutable field) applied if any. -/
def collectMetricsSim (scenarioActive : Option AlertType) : InfrastructureMetrics :=
  match scenarioActive with
  | some scenario => applyScenario baseMetrics scenario
  | none => baseMetrics

/-- `InfrastructureSimulator.triggerScenario`: sets the active scenario. -/
def triggerScenario (scenario : AlertType) : Option AlertType := some scenario

/-- `InfrastructureSimulator.clearScenario`: clears the active scenario. -/
def clearScenario : Option AlertType := none

/-- `InfrastructureSimulator.performHealthChecks`: memory unhealthy at
60 or more (threshold field recorded as 80), CPU at 80 or more, disk at
95 or more, any container not running, network latency above 200; `ts`
stands for the single `new Date().toISOString()` read. -/
def performHealthChecksSim (ts : String) (metrics : InfrastructureMetrics) :
    List HealthCheckResult :=
  [ { resource := "system-memory"
      status := if metrics.memory.percentage ≥ 60 then .unhealthy else .healthy
      metric := "memory_usage_percent"
      value := metrics.memory.percentage
      threshold := 80
      timestamp := ts }
  , { resource := "system-cpu"
      status := if metrics.cpu.usage ≥ 80 then .unhealthy else .healthy
      metric := "cpu_usage_percent"
      value := metrics.cpu.usage
      threshold := 80
      timestamp := ts }
  , { resource := "system-disk"
      status := if metrics.disk.percentage ≥ 95 then .unhealthy else .healthy
      metric := "disk_usage_percent"
      value := metrics.disk.percentage
      threshold := 95
      timestamp := ts } ]
  ++ metrics.containers.map (fun container =>
      { resource := "container-" ++ container.name
        status := if container.status = .running then .healthy else .unhealthy
        metric := "container_status"
        value := if container.status = .running then 1 else 0
        threshold := 1
        timestamp := ts })
  ++ [ { resource := "network"
         status := if metrics.network.latency > 200 then .unhealthy else .healthy
         metric := "network_latency_ms"
         value := metrics.network.latency
         threshold := 200
         timestamp := ts } ]

/-- `PrometheusClient.performHealthChecks`: textually the same checks and
thresholds as the simulator's (including the memory check's recorded
threshold of 80 against its trigger condition of 60). -/
def performHealthChecksProm (ts : String) (metrics : InfrastructureMetrics) :
    List HealthCheckResult :=
  [ { resource := "system-memory"
      status := if metrics.memory.percentage ≥ 60 then .unhealthy else .healthy
      metric := "memory_usage_percent"
      value := metrics.memory.percentage
      threshold := 80
      timestamp := ts }
  , { resource := "system-cpu"
      status := if metrics.cpu.usage ≥ 80 then .unhealthy else .healthy
      metric := "cpu_usage_percent"
      value := metrics.cpu.usage
      threshold := 80
      timestamp := ts }
  , { resource := "system-disk"
      status := if metrics.disk.percentage ≥ 95 then .unhealthy else .healthy
      metric := "disk_usage_percent"
      value := metrics.disk.percentage
      threshold := 95
      timestamp := ts } ]
  ++ metrics.containers.map (fun container =>
      { resource := "container-" ++ container.name
        status := if container.status = .running then .healthy else .unhealthy
        metric := "container_status"
        value := if container.status = .running then 1 else 0
        threshold := 1
        timestamp := ts })
  ++ [ { resource := "network"
         status := if metrics.network.latency > 200 then .unhealthy else .healthy
         metric := "network_latency_ms"
         value := metrics.network.latency
         threshold := 200
         timestamp := ts } ]

/-- `AlertData` of `types/incidents.types.ts`, as built by
`InfrastructureSimulator.createAlert`. The `metadata` record is
flattened into its read fields (`healthCheck`, `alertType`,
`diskUsagePercent`); the synthetic human-readable `logs` strings (pure
string formatting of the metric value) are not modelled, no verified
property mentions them. -/
structure AlertData where
  id : String
  alertType : AlertType
  severity : Severity
  timestamp : String
  metric : String
  currentValue : Rat
  threshold : Rat
  affectedResource : String
  metadataHealthCheck : HealthCheckResult
  metadataAlertType : AlertType
  metadataDiskUsagePercent : Option Rat
deriving DecidableEq

/-- The generated alert id `alert-<epoch-ms>-<random base36>`; `nowMs`
and `rand` stand for the `Date.now()` and `Math.random()` reads. -/
def alertId (nowMs : Nat) (rand : String) : String :=
  "alert-" ++ toString nowMs ++ "-" ++ rand

/-- The alert record `InfrastructureSimulator.createAlert` builds once a
branch has fixed the alert type and severity; `diskUsagePercent` is
attached to the metadata for disk checks. -/
def mkAlertFromCheck (nowMs : Nat) (rand ts : String) (check : HealthCheckResult)
    (alertType : AlertType) (severity : Severity) : AlertData :=
  { id := alertId nowMs rand
    alertType := alertType
    severity := severity
    timestamp := ts
    metric := check.metric
    currentValue := check.value
    threshold := check.threshold
    affectedResource := check.resource
    metadataHealthCheck := check
    metadataAlertType := alertType
    metadataDiskUsagePercent :=
      if check.metric = "disk_usage_percent" then some check.value else none }

/-- Branch structure of `InfrastructureSimulator.createAlert`. -/
def createAlertSim (nowMs : Nat) (rand : String) (ts : String)
    (check : HealthCheckResult) : Option AlertData :=
  if check.metric = "memory_usage_percent" then
    some (mkAlertFromCheck nowMs rand ts check .high_memory
      (if check.value > 92 then .critical else .high))
  else if check.metric = "cpu_usage_percent" then
    some (mkAlertFromCheck nowMs rand ts check .cpu_spike .high)
  else if check.metric = "disk_usage_percent" then
    if check.resource = "sandbox-disk" then
      some (mkAlertFromCheck nowMs rand ts check .sandbox_disk_full .high)
    else
      some (mkAlertFromCheck nowMs rand ts check .disk_full .critical)
  else if check.metric = "container_status" then
    some (mkAlertFromCheck nowMs rand ts check .container_down .critical)
  else if check.metric = "network_latency_ms" then
    some (mkAlertFromCheck nowMs rand ts check .network_latency .medium)
  else
    none

/-- `InfrastructureSimulator.detectAlerts`: creates an alert for every
unhealthy check (skipping the ones `createAlert` declines). -/
def detectAlertsSim (nowMs : Nat) (rand : String) (ts : String)
    (healthChecks : List HealthCheckResult) : List AlertData :=
  healthChecks.filterMap (fun check =>
    if check.status = .unhealthy then createAlertSim nowMs rand ts check else none)

/-! ## Sandbox monitor (`src/services/sandbox-monitor.ts`)

The sandbox is a directory tree. An entry is a regular file with a byte
size and a modification time (epoch ms), a subdirectory with its own
modification time and children, or an unreadable path (one on which
`fs.stat`/`fs.readdir` fails). -/

/-- One filesystem entry of the sandbox tree. -/
inductive FsEntry
  | file (name : String) (sizeBytes : Nat) (mtimeMs : Int)
  | subdir (name : String) (mtimeMs : Int) (children : List FsEntry)
  | unreadable (name : String)

mutual

/-- Boolean equality on `FsEntry` (the deriving handler does not support
this nested inductive). -/
def FsEntry.beq : FsEntry → FsEntry → Bool
  | .file n sz m, .file n' sz' m' => n == n' && sz == sz' && m == m'
  | .subdir n m cs, .subdir n' m' cs' => n == n' && m == m' && FsEntry.beqList cs cs'
  | .unreadable n, .unreadable n' => n == n'
  | _, _ => false

/-- Boolean equality on lists of `FsEntry`. -/
def FsEntry.beqList : List FsEntry → List FsEntry → Bool
  | [], [] => true
  | a :: as, b :: bs => FsEntry.beq a b && FsEntry.beqList as bs
  | _, _ => false

end

mutual

/-- `FsEntry.beq` decides equality. -/
theorem FsEntry.beq_iff_eq : ∀ a b : FsEntry, FsEntry.beq a b = true ↔ a = b
  | .file _ _ _, .file _ _ _ => by simp [FsEntry.beq, and_assoc]
  | .file _ _ _, .subdir _ _ _ => by simp [FsEntry.beq]
  | .file _ _ _, .unreadable _ => by simp [FsEntry.beq]
  | .subdir _ _ _, .file _ _ _ => by simp [FsEntry.beq]
  | .subdir _ m cs, .subdir _ m' cs' => by
      simp [FsEntry.beq, FsEntry.beqList_iff_eq cs cs', and_assoc]
  | .subdir _ _ _, .unreadable _ => by simp [FsEntry.beq]
  | .unreadable _, .file _ _ _ => by simp [FsEntry.beq]
  | .unreadable _, .subdir _ _ _ => by simp [FsEntry.beq]
  | .unreadable _, .unreadable _ => by simp [FsEntry.beq]

/-- `FsEntry.beqList` decides equality of entry lists. -/
theorem FsEntry.beqList_iff_eq : ∀ as bs : List FsEntry, FsEntry.beqList as bs = true ↔ as = bs
  | [], [] => by simp [FsEntry.beqList]
  | [], _ :: _ => by simp [FsEntry.beqList]
  | _ :: _, [] => by simp [FsEntry.beqList]
  | a :: as, b :: bs => by
      simp [FsEntry.beqList, FsEntry.beq_iff_eq a b, FsEntry.beqList_iff_eq as bs]

end

instance : DecidableEq FsEntry := fun a b =>
  decidable_of_iff (FsEntry.beq a b = true) (FsEntry.beq_iff_eq a b)

/-- The `name` component of an entry. -/
def FsEntry.entryName : FsEntry → String
  | .file n _ _ => n
  | .subdir n _ _ => n
  | .unreadable n => n

/-- Whether an entry is a regular file. -/
def FsEntry.isRegularFile : FsEntry → Bool
  | .file _ _ _ => true
  | _ => false

/-- Whether an entry is an unreadable path. -/
def FsEntry.isUnreadablePath : FsEntry → Bool
  | .unreadable _ => true
  | _ => false

/-- The modification time `fs.stat` reports for an entry (files and
subdirectories both have one; this is never consulted for an unreadable
entry because `fs.stat` throws on it first). -/
def FsEntry.mtime : FsEntry → Int
  | .file _ _ m => m
  | .subdir _ m _ => m
  | .unreadable _ => 0

mutual

/-- `SandboxMonitor.getDirectorySize` on one entry: a file contributes
its size, a directory the sum of its children, and a path that cannot be
read (the catch branch) contributes 0. -/
def entrySizeBytes : FsEntry → Nat
  | .file _ sz _ => sz
  | .subdir _ _ children => entriesSizeBytes children
  | .unreadable _ => 0

/-- Sum of `entrySizeBytes` over a directory's children. -/
def entriesSizeBytes : List FsEntry → Nat
  | [] => 0
  | e :: es => entrySizeBytes e + entriesSizeBytes es

end

/-- The sandbox root: the four fixed subdirectories (`logs`, `temp`,
`cache` cleanable, `data` preserved), each `none` when the directory is
missing (its `readdir` throws and the corresponding catch runs). -/
structure SandboxState where
  logs : Option (List FsEntry)
  temp : Option (List FsEntry)
  cache : Option (List FsEntry)
  data : Option (List FsEntry)
deriving DecidableEq

/-- Byte size `getDirectorySize` measures for one subdirectory (0 when
it is missing). -/
def dirSizeBytes : Option (List FsEntry) → Nat
  | none => 0
  | some es => entriesSizeBytes es

/-- `SandboxMonitor.countFiles`: number of direct children, 0 when the
directory cannot be read. -/
def countFilesIn : Option (List FsEntry) → Nat
  | none => 0
  | some es => es.length

/-- The 100 MB `THRESHOLD_MB` constant. -/
def THRESHOLD_MB : Nat := 100

/-- `Math.round(bytes / (1024 * 1024))` for a non-negative byte count:
JavaScript rounds half up, and `floor (b / 1048576 + 1 / 2)` equals
`(b + 524288) / 1048576` in natural division. -/
def roundBytesToMB (bytes : Nat) : Nat := (bytes + 524288) / 1048576

/-- `SandboxMetrics` of `sandbox-monitor.ts` (the `files` record is
flattened into one field per subdirectory). -/
structure SandboxMetrics where
  totalSizeMB : Nat
  totalSizeBytes : Nat
  percentage : Nat
  filesLogs : Nat
  filesTemp : Nat
  filesCache : Nat
  filesData : Nat
deriving DecidableEq

/-- `SandboxMonitor.collectMetrics`: total byte size of the sandbox tree
(the root's children are the four fixed subdirectories), rounded to
whole MB; `percentage` is `Math.round((totalSizeMB / 100) * 100)`, which
is `totalSizeMB` itself in exact arithmetic. -/
def collectSandboxMetrics (s : SandboxState) : SandboxMetrics :=
  let totalSizeBytes :=
    dirSizeBytes s.logs + dirSizeBytes s.temp + dirSizeBytes s.cache + dirSizeBytes s.data
  let totalSizeMB := roundBytesToMB totalSizeBytes
  { totalSizeMB := totalSizeMB
    totalSizeBytes := totalSizeBytes
    percentage := totalSizeMB
    filesLogs := countFilesIn s.logs
    filesTemp := countFilesIn s.temp
    filesCache := countFilesIn s.cache
    filesData := countFilesIn s.data }

/-- `SandboxMonitor.isOverThreshold`: `totalSizeMB >= THRESHOLD_MB`. -/
def isOverThreshold (s : SandboxState) : Bool :=
  THRESHOLD_MB ≤ (collectSandboxMetrics s).totalSizeMB

/-- The temp phase of `executeCleanup`: walks the directory listing in
order and unlinks every entry whose age exceeds 0.01 hours, that is
whose `nowMs - mtime` exceeds 36000 ms (exact arithmetic). `fs.unlink`
on a subdirectory throws, and `fs.stat` on an unreadable entry throws;
either lands in the phase-level catch, leaving that entry and all later
ones untouched. -/
def cleanTempEntries (nowMs : Int) : List FsEntry → List FsEntry
  | [] => []
  | .file n sz m :: es =>
      if 36000 < nowMs - m then cleanTempEntries nowMs es
      else .file n sz m :: cleanTempEntries nowMs es
  | .subdir n m cs :: es =>
      if 36000 < nowMs - m then .subdir n m cs :: es
      else .subdir n m cs :: cleanTempEntries nowMs es
  | .unreadable n :: es => .unreadable n :: es

/-- Stable ascending insertion by modification time, auxiliary to
`sortByMtime`. -/
def insertByMtime (a : FsEntry) : List FsEntry → List FsEntry
  | [] => [a]
  | b :: l => if a.mtime ≤ b.mtime then a :: b :: l else b :: insertByMtime a l

/-- The `logStats.sort((a, b) => a.mtime - b.mtime)` call: a stable
ascending sort by modification time (ECMAScript `Array.prototype.sort`
is stable, and any stable ascending sort produces this result). -/
def sortByMtime : List FsEntry → List FsEntry
  | [] => []
  | a :: l => insertByMtime a (sortByMtime l)

/-- The deletion loop of the logs phase: unlinks the listed entries in
order; deleting a non-file throws, which the phase-level catch turns
into keeping everything not yet deleted (entries already unlinked stay
deleted). Directory listings have pairwise distinct names, so removal by
name removes exactly the listed entry. -/
def deleteListedLogs : List FsEntry → List FsEntry → List FsEntry
  | remaining, [] => remaining
  | remaining, .file n _ _ :: toDelete =>
      deleteListedLogs (remaining.filter (fun e => !(e.entryName == n))) toDelete
  | remaining, _ :: _ => remaining

/-- The logs phase of `executeCleanup`: stats every entry (an unreadable
entry makes the whole phase land in its catch, deleting nothing), sorts
oldest first by modification time and deletes all but the 5 newest
(`slice(0, -5)`). -/
def cleanLogEntries (es : List FsEntry) : List FsEntry :=
  if es.any (fun e => e.isUnreadablePath) then es
  else
    let sorted := sortByMtime es
    deleteListedLogs es (sorted.take (sorted.length - 5))

/-- The cache phase of `executeCleanup`: unlinks every listed entry in
order. Unlinking a regular file succeeds; unlinking a subdirectory
throws (so the phase-level catch leaves it and every later entry in
place); an unreadable entry is modelled as throwing on unlink as well. -/
def cleanCacheEntries : List FsEntry → List FsEntry
  | [] => []
  | .file _ _ _ :: es => cleanCacheEntries es
  | e :: es => e :: es

/-- Return value of `executeCleanup` (the human-readable `message` and
`details` strings are not modelled). -/
structure CleanupReport where
  success : Bool
  freedMB : Int
deriving DecidableEq

/-- `SandboxMonitor.executeCleanup`: measures the sandbox, runs the
temp, logs and cache phases in that order (each phase catching its own
failures; a missing subdirectory means its `readdir` throws and the
phase is skipped, so `Option.map` leaves `none` unchanged), re-measures,
and reports `freedMB` as before minus after. The outer catch is
unreachable: every phase catches internally and `collectMetrics` never
throws, so `success` is always true. The `data` subdirectory is never
read or written. -/
def executeCleanup (nowMs : Int) (s : SandboxState) : SandboxState × CleanupReport :=
  let beforeMB := (collectSandboxMetrics s).totalSizeMB
  let s1 : SandboxState := { s with temp := s.temp.map (cleanTempEntries nowMs) }
  let s2 : SandboxState := { s1 with logs := s1.logs.map cleanLogEntries }
  let s3 : SandboxState := { s2 with cache := s2.cache.map cleanCacheEntries }
  let afterMB := (collectSandboxMetrics s3).totalSizeMB
  (s3, { success := true, freedMB := (beforeMB : Int) - (afterMB : Int) })

/-! ## Rollback manager (`src/services/rollback-manager.ts`) -/

/-- `RollbackSnapshot` (the simulated `beforeState` placeholder strings
are captured by `captureCurrentState` and never branched on; the record
is modelled by the fields rollback execution reads). -/
structure RollbackSnapshot where
  incidentId : String
  alertType : AlertType
  timestamp : String
  affectedResource : String
  fixApplied : String
deriving DecidableEq

/-- `RollbackProcedure`. -/
structure RollbackProcedure where
  steps : List String
  estimatedDuration : Nat
  requiresConfirmation : Bool
deriving DecidableEq

/-- `RollbackManager.getRollbackProcedure`: the fixed per-alert-type
procedure table. The table has no entry for `sandbox_disk_full`
(`procedures[alertType]` is `undefined` there, so the subsequent
`.steps` access throws, landing in the outer catch). -/
def getRollbackProcedure : AlertType → Option RollbackProcedure
  | .high_memory => some
      { steps :=
          [ "Restore previous memory limits"
          , "Restart affected processes with original config"
          , "Verify memory usage returned to baseline" ]
        estimatedDuration := 30000
        requiresConfirmation := false }
  | .container_down => some
      { steps :=
          [ "Restore container to previous state"
          , "Apply original container configuration"
          , "Wait for health checks to pass" ]
        estimatedDuration := 45000
        requiresConfirmation := true }
  | .disk_full => some
      { steps :=
          [ "Restore deleted files if backed up"
          , "Revert log rotation changes"
          , "Verify disk space allocation" ]
        estimatedDuration := 60000
        requiresConfirmation := false }
  | .cpu_spike => some
      { steps :=
          [ "Restore CPU throttling settings"
          , "Revert process priority changes"
          , "Monitor CPU usage stabilization" ]
        estimatedDuration := 20000
        requiresConfirmation := false }
  | .network_latency => some
      { steps :=
          [ "Restore network configuration"
          , "Revert routing table changes"
          , "Verify network latency metrics" ]
        estimatedDuration := 40000
        requiresConfirmation := true }
  | .sandbox_disk_full => none

/-- `RollbackResult`. -/
structure RollbackResult where
  success : Bool
  incidentId : String
  rollbackTimestamp : String
  duration : Nat
  errors : Option (List String)
  verificationPassed : Bool
deriving DecidableEq

/-- One `rollback-history` record: the result plus the reason and the
snapshot, as `executeRollback` stores it. -/
structure RollbackHistoryEntry where
  result : RollbackResult
  reason : String
  snapshot : RollbackSnapshot
deriving DecidableEq

/-- The slices of the key/value store the rollback manager touches:
state groups `rollback-snapshots` and `rollback-history`, as association
lists in insertion order. -/
structure RollbackStore where
  snapshots : List (String × RollbackSnapshot)
  history : List (String × RollbackHistoryEntry)
deriving DecidableEq

/-- The typed error `executeRollback` raises (`RollbackError` of
`sentinal-errors.ts` carries the incident id and the reason; its
rendered message prepends the fixed text below). -/
structure RollbackErrorData where
  incidentId : String
  reason : String
deriving DecidableEq

/-- The message super() builds for a `RollbackError`. -/
def rollbackErrorMessage (incidentId reason : String) : String :=
  "Rollback failed for incident " ++ incidentId ++ ": " ++ reason

/-- `RollbackManager.executeRollback`. The two `Math.random()` draws per
run are passed in: `stepFails i` tells whether simulated step `i` fails
(probability 5 percent in the source) and `verifyOk` whether the
simulated verification passes (probability 90 percent). `nowMs` and
`nowIso` stand for the `Date.now()` and `new Date().toISOString()` reads
(the `duration` field, a difference of two wall-clock reads, is passed
as `durationMs`). The function returns the thrown error or the
`RollbackResult`, together with the store after the run: a missing
snapshot throws a `RollbackError` (rewrapped once by the outer catch)
before anything is written; a missing procedure entry (only
`sandbox_disk_full`) makes the `.steps` access throw a TypeError that
the outer catch wraps; otherwise every step runs (failures collected,
not fatal), verification runs, and a history entry keyed
`incidentId-<epoch-ms>` is appended whatever the outcome. -/
def executeRollback (stepFails : Nat → Bool) (verifyOk : Bool) (nowMs : Nat)
    (nowIso : String) (durationMs : Nat) (st : RollbackStore)
    (incidentId reason : String) :
    Except RollbackErrorData RollbackResult × RollbackStore :=
  match st.snapshots.lookup incidentId with
  | none =>
      (Except.error
        { incidentId := incidentId
          reason := rollbackErrorMessage incidentId "No rollback snapshot found" },
       st)
  | some snapshot =>
      match getRollbackProcedure snapshot.alertType with
      | none =>
          (Except.error
            { incidentId := incidentId
              reason := "Cannot read properties of undefined (reading 'steps')" },
           st)
      | some procedure =>
          let errors := (List.range procedure.steps.length).filterMap (fun i =>
            if stepFails i then
              some ("Step " ++ toString (i + 1) ++ " failed: Failed to execute: "
                ++ procedure.steps.getD i "")
            else none)
          let success := errors.isEmpty && verifyOk
          let result : RollbackResult :=
            { success := success
              incidentId := incidentId
              rollbackTimestamp := nowIso
              duration := durationMs
              errors := if errors.isEmpty then none else some errors
              verificationPassed := verifyOk }
          let entry : RollbackHistoryEntry :=
            { result := result, reason := reason, snapshot := snapshot }
          (Except.ok result,
           { st with history :=
              st.history ++ [(incidentId ++ "-" ++ toString nowMs, entry)] })

/-! ## Manual approval GET handler (`src/api/manual-approval.step.ts`) -/

/-- Result of `SlackInteractiveService.executeAction` (it catches every
internal error and reports it as `success := false`, so it never
throws). -/
structure ExecResult where
  success : Bool
  message : String
  logs : List String
deriving DecidableEq

/-- User roles attached by the auth middleware. -/
inductive UserRole
  | admin
  | operator
  | viewer
deriving DecidableEq

/-- A stored `approval-pending` record as the GET handler reads and
rewrites it (optional fields are those the update spreads in). -/
structure PendingApproval where
  incidentId : String
  status : String
  requestedAt : String
  riskLevel : RiskLevel
  rcaSummary : String
  proposedFix : String
  approver : Option String
  approvedAt : Option String
  executionResult : Option ExecResult
  actionType : Option String
deriving DecidableEq

/-- The query parameters the GET handler reads (strings straight from
the URL; `approver` defaults to `slack-interactive` when absent). An
absent or empty `execute` is falsy in the `action === 'approve' &&
execute` test. -/
structure ApprovalQuery where
  incident : String
  action : String
  execute : Option String
  container : Option String
  approver : Option String
deriving DecidableEq

/-- The slices of the key/value store the GET handler touches: state
groups `approval-pending` and `rca-results`. -/
structure ApprovalStore where
  approvalPending : List (String × PendingApproval)
  rcaResults : List (String × RCAResult)
deriving DecidableEq

/-- Events the GET handler can emit. -/
inductive ApprovalEmit
  | fixApproved (incidentId : String) (approvalType : String) (approvedBy : String)
      (approvedAt : String) (rcaResult : RCAResult)
      (executionResult : Option ExecResult) (actionType : String)
  | fixRejected (incidentId : String) (rejectedBy : String) (rejectedAt : String)
      (reason : String)
deriving DecidableEq

/-- Outcome of one GET handler run: HTTP status, emitted events, and the
store after the run. -/
structure ApprovalHandlerResult where
  status : Nat
  emitted : List ApprovalEmit
  store : ApprovalStore
deriving DecidableEq

/-- `state.set` on an association-list state group: overwrite the
existing entry for the key or append a new one. -/
def setAssoc (l : List (String × PendingApproval)) (k : String) (v : PendingApproval) :
    List (String × PendingApproval) :=
  if l.any (fun p => p.1 == k) then
    l.map (fun p => if p.1 == k then (k, v) else p)
  else
    l ++ [(k, v)]

/-- The GET `handler` of `manual-approval.step.ts` (Slack button
clicks). `userRole` is the role the auth middleware attached (`none`
when `req.user` is missing); `execOutcome` is what
`slackInteractive.executeAction` returns if the handler calls it (the
service never throws); `now` stands for the handler's
`new Date().toISOString()` reads. Behaviour: 404 when no pending
approval or no RCA result exists, 400 when the approval is not
`pending`, 403 when `execute` is `clear_sandbox` or `both` without an
admin role; otherwise the optional real action runs, the pending record
is set to its terminal status with the execution result attached
(whether or not that execution succeeded), and `fix.approved` or
`fix.rejected` is emitted. The Slack result notification is
fire-and-forget and has no modelled effect. -/
def manualApprovalGet (execOutcome : ExecResult) (userRole : Option UserRole)
    (now : String) (st : ApprovalStore) (q : ApprovalQuery) : ApprovalHandlerResult :=
  let incidentId := q.incident
  let approver := q.approver.getD "slack-interactive"
  let executeVal := q.execute.getD ""
  match st.approvalPending.lookup incidentId with
  | none => { status := 404, emitted := [], store := st }
  | some pendingApproval =>
    if pendingApproval.status ≠ "pending" then
      { status := 400, emitted := [], store := st }
    else
      match st.rcaResults.lookup incidentId with
      | none => { status := 404, emitted := [], store := st }
      | some rcaResult =>
        if q.action = "approve" ∧ executeVal ≠ ""
            ∧ (executeVal = "clear_sandbox" ∨ executeVal = "both")
            ∧ userRole ≠ some .admin then
          { status := 403, emitted := [], store := st }
        else
          let executionResult : Option ExecResult :=
            if q.action = "approve" ∧ executeVal ≠ "" then some execOutcome else none
          let actionType := if executeVal = "" then "none" else executeVal
          let updated : PendingApproval :=
            { pendingApproval with
                status := if q.action = "approve" then "approved" else "rejected"
                approver := some approver
                approvedAt := some now
                executionResult := executionResult
                actionType := some actionType }
          let store' : ApprovalStore :=
            { st with approvalPending := setAssoc st.approvalPending incidentId updated }
          if q.action = "approve" then
            { status := 200
              emitted := [.fixApproved incidentId "interactive" approver now
                rcaResult executionResult actionType]
              store := store' }
          else
            { status := 200
              emitted := [.fixRejected incidentId approver now
                "Rejected via Slack interactive button"]
              store := store' }

/-! ## Theorems for the verified claims -/

/-- C1: for every RCA result whose `metadata.alertType` equals
`sandbox_disk_full`, `evaluatePolicy` returns decision require-approval
(so never auto-approve and never reject), regardless of the risk level,
of the proposed-fix text, and of the policy rules in force. -/
theorem c1_sandbox_always_requires_approval (rcaResult : RCAResult) (rules : PolicyRules)
    (h : rcaResult.metadata.bind (fun m => m.alertType) = some "sandbox_disk_full") :
    (evaluatePolicy rcaResult rules).action = PolicyAction.requireApproval := by
  simp [evaluatePolicy, h]

/-- Sample RCA result for the C1 witness: a low-risk sandbox-cleanup
proposal (`riskLevel = low` would otherwise auto-approve). -/
def sandboxRca : RCAResult :=
  { incidentId := "inc-001"
    summary := "Sandbox disk usage above threshold"
    rootCause := "Accumulated demo files"
    proposedFix := "Run sandbox cleanup"
    riskLevel := .low
    estimatedImpact := "Low"
    timestamp := "2025-01-01T00:00:00.000Z"
    metadata := some { alertType := some "sandbox_disk_full", diskUsagePercent := some 110 } }

/-- Witness for C1 at a concrete low-risk sandbox RCA result. -/
theorem c1_witness :
    (evaluatePolicy sandboxRca defaultRules).action = PolicyAction.requireApproval :=
  c1_sandbox_always_requires_approval sandboxRca defaultRules rfl

/-- RCA result whose proposed fix contains `delete-data` while the
metadata names the sandbox alert type: the sandbox override fires first. -/
def deleteDataSandboxRca : RCAResult :=
  { incidentId := "inc-002"
    summary := "Sandbox disk usage above threshold"
    rootCause := "Accumulated demo files"
    proposedFix := "delete-data under the sandbox cache"
    riskLevel := .high
    estimatedImpact := "Low"
    timestamp := "2025-01-01T00:00:00.000Z"
    metadata := some { alertType := some "sandbox_disk_full", diskUsagePercent := some 110 } }

/-- C3 counterexample: an RCA result whose proposed fix does contain the
text `delete-data` (case-insensitively) but for which `evaluatePolicy`
under the default rules returns require-approval, not reject — the
sandbox-override branch runs before the blocked-action check. -/
theorem c3_counterexample :
    strIncludes (jsToLower deleteDataSandboxRca.proposedFix) (jsToLower "delete-data") = true
    ∧ (evaluatePolicy deleteDataSandboxRca defaultRules).action ≠ PolicyAction.reject := by
  exact ⟨by decide, by decide⟩

/-- C3 amended: for every RCA result whose proposed fix contains
`delete-data` (case-insensitively) and whose `metadata.alertType` is not
`sandbox_disk_full`, `evaluatePolicy` under the default rules returns
reject, for every risk level. -/
theorem c3_amended_blocked_action_rejected (rcaResult : RCAResult)
    (hdd : strIncludes (jsToLower rcaResult.proposedFix) (jsToLower "delete-data") = true)
    (hsb : rcaResult.metadata.bind (fun m => m.alertType) ≠ some "sandbox_disk_full") :
    (evaluatePolicy rcaResult defaultRules).action = PolicyAction.reject := by
  have hfind : defaultRules.blockedActions.find?
      (fun blockedAction =>
        strIncludes (jsToLower rcaResult.proposedFix) (jsToLower blockedAction))
      = some "delete-data" := List.find?_cons_of_pos _ hdd
  simp [evaluatePolicy, hsb, hfind]

/-- Sample RCA result for the C3 witness: low risk (the auto-approve
candidate class) and an upper-case occurrence of the blocked action. -/
def deleteDataRca : RCAResult :=
  { incidentId := "inc-003"
    summary := "Stale records detected"
    rootCause := "Table growth"
    proposedFix := "Apply DELETE-DATA migration on the archive table"
    riskLevel := .low
    estimatedImpact := "Medium"
    timestamp := "2025-01-01T00:00:00.000Z"
    metadata := none }

/-- Witness for the amended C3 at a concrete low-risk RCA result with an
upper-case `DELETE-DATA` occurrence. -/
theorem c3_witness :
    (evaluatePolicy deleteDataRca defaultRules).action = PolicyAction.reject :=
  c3_amended_blocked_action_rejected deleteDataRca (by decide) (by decide)

/-- C5: whenever the policy decision is reject, the handler emits no
event, creates no `approval-pending` record, and persists exactly the
policy decision and a rejection record. -/
theorem c5_reject_persists_and_emits_nothing (now : String) (rules : PolicyRules)
    (rcaResult : RCAResult)
    (h : (evaluatePolicy rcaResult rules).action = PolicyAction.reject) :
    (policyHandler now rules rcaResult).emitted = []
    ∧ (policyHandler now rules rcaResult).pendingApproval = none
    ∧ (policyHandler now rules rcaResult).rejection = some
        { incidentId := rcaResult.incidentId
          reason := (evaluatePolicy rcaResult rules).reason
          rejectedAt := now }
    ∧ (policyHandler now rules rcaResult).decisionRecord =
        { incidentId := rcaResult.incidentId
          decision := PolicyAction.reject
          reason := (evaluatePolicy rcaResult rules).reason
          riskLevel := rcaResult.riskLevel
          evaluatedAt := now
          rcaSummary := rcaResult.summary
          proposedFix := rcaResult.proposedFix } := by
  simp [policyHandler, h]

/-- Witness for C5 at a concrete rejected RCA result. -/
theorem c5_witness :
    (policyHandler "2025-01-01T00:00:01.000Z" defaultRules deleteDataRca).emitted = []
    ∧ (policyHandler "2025-01-01T00:00:01.000Z" defaultRules deleteDataRca).pendingApproval = none
    ∧ (policyHandler "2025-01-01T00:00:01.000Z" defaultRules deleteDataRca).rejection = some
        { incidentId := deleteDataRca.incidentId
          reason := (evaluatePolicy deleteDataRca defaultRules).reason
          rejectedAt := "2025-01-01T00:00:01.000Z" }
    ∧ (policyHandler "2025-01-01T00:00:01.000Z" defaultRules deleteDataRca).decisionRecord =
        { incidentId := deleteDataRca.incidentId
          decision := PolicyAction.reject
          reason := (evaluatePolicy deleteDataRca defaultRules).reason
          riskLevel := deleteDataRca.riskLevel
          evaluatedAt := "2025-01-01T00:00:01.000Z"
          rcaSummary := deleteDataRca.summary
          proposedFix := deleteDataRca.proposedFix } :=
  c5_reject_persists_and_emits_nothing "2025-01-01T00:00:01.000Z" defaultRules
    deleteDataRca (by decide)

/-- C6: in both the simulator and the Prometheus client, the
system-memory health check (the first result) is marked unhealthy
exactly when `memory.percentage >= 60`, while the threshold field
recorded on that result is always 80. -/
theorem c6_memory_trigger_sixty_threshold_eighty (metrics : InfrastructureMetrics)
    (ts : String) :
    ((performHealthChecksSim ts metrics).head?.map (fun c => c.resource)
        = some "system-memory")
    ∧ (((performHealthChecksSim ts metrics).head?.map (fun c => c.status)
        = some HealthStatus.unhealthy) ↔ 60 ≤ metrics.memory.percentage)
    ∧ ((performHealthChecksSim ts metrics).head?.map (fun c => c.threshold) = some 80)
    ∧ ((performHealthChecksProm ts metrics).head?.map (fun c => c.resource)
        = some "system-memory")
    ∧ (((performHealthChecksProm ts metrics).head?.map (fun c => c.status)
        = some HealthStatus.unhealthy) ↔ 60 ≤ metrics.memory.percentage)
    ∧ ((performHealthChecksProm ts metrics).head?.map (fun c => c.threshold) = some 80) := by
  refine ⟨rfl, ?_, rfl, rfl, ?_, rfl⟩ <;>
    by_cases h : 60 ≤ metrics.memory.percentage <;>
      simp [performHealthChecksSim, performHealthChecksProm, h]

/-- C8: triggering `high_memory` then collecting metrics yields memory
percentage 80; clearing the scenario restores 25; on the baseline
metrics with no active scenario every health check is healthy and no
alert is detected. -/
theorem c8_scenario_roundtrip_and_baseline (ts ts2 rand : String) (nowMs : Nat) :
    (collectMetricsSim (triggerScenario AlertType.high_memory)).memory.percentage = 80
    ∧ (collectMetricsSim clearScenario).memory.percentage = 25
    ∧ (performHealthChecksSim ts (collectMetricsSim clearScenario)).all
        (fun c => decide (c.status = HealthStatus.healthy)) = true
    ∧ detectAlertsSim nowMs rand ts2
        (performHealthChecksSim ts (collectMetricsSim clearScenario)) = [] :=
  ⟨rfl, rfl, rfl, rfl⟩

/-- A concatenation starting with `container-` is never the string
`sandbox-disk` (their first characters differ). -/
theorem containerResource_ne_sandbox (n : String) :
    ("container-" ++ n) ≠ "sandbox-disk" := by
  intro h
  have hd := congrArg String.data h
  rw [String.data_append] at hd
  have h1 : ("container-").data
      = 'c' :: ['o', 'n', 't', 'a', 'i', 'n', 'e', 'r', '-'] := rfl
  have h2 : ("sandbox-disk").data
      = 's' :: ['a', 'n', 'd', 'b', 'o', 'x', '-', 'd', 'i', 's', 'k'] := rfl
  rw [h1, h2, List.cons_append] at hd
  injection hd with hc _
  exact absurd hc (by decide)

/-- Every health check the simulator produces names one of the fixed
resources `system-memory`, `system-cpu`, `system-disk`,
`container-<name>` or `network`; none of these is `sandbox-disk`. -/
theorem performHealthChecksSim_resource_ne_sandbox (ts : String)
    (metrics : InfrastructureMetrics) (c : HealthCheckResult)
    (hc : c ∈ performHealthChecksSim ts metrics) : c.resource ≠ "sandbox-disk" := by
  unfold performHealthChecksSim at hc
  simp only [List.mem_append, List.mem_cons, List.mem_singleton, List.mem_map,
    List.not_mem_nil, or_false] at hc
  rcases hc with (((rfl | rfl | rfl) | ⟨container, _, rfl⟩) | rfl)
  · simp
  · simp
  · simp
  · exact containerResource_ne_sandbox container.name
  · simp

/-- Helper record-projection fact: the alert built by `createAlertSim`
carries the alert type chosen by the metric branch. -/
theorem createAlertSim_ne_sandbox (nowMs : Nat) (rand ts : String)
    (check : HealthCheckResult) (hres : check.resource ≠ "sandbox-disk")
    (a : AlertData) (ha : createAlertSim nowMs rand ts check = some a) :
    a.alertType ≠ AlertType.sandbox_disk_full := by
  unfold createAlertSim at ha
  split_ifs at ha <;>
    first
      | exact Option.noConfusion ha
      | (rename_i hsb; exact absurd hsb hres)
      | (simp only [Option.some.injEq] at ha; subst ha; simp [mkAlertFromCheck])

/-- C9: with the simulator's `sandbox_disk_full` scenario active, the
collect-metrics, health-checks, detect-alerts pipeline produces exactly
one alert, of type `disk_full` with severity critical on resource
`system-disk`; and for every metrics value the pipeline never produces a
`sandbox_disk_full` alert (the disk check always reports `system-disk`,
so the sandbox branch of `createAlert` is unreachable this way). -/
theorem c9_sandbox_scenario_never_sandbox_alert (ts ts2 rand : String) (nowMs : Nat) :
    ((detectAlertsSim nowMs rand ts2 (performHealthChecksSim ts
          (collectMetricsSim (triggerScenario AlertType.sandbox_disk_full)))).map
        (fun a => (a.alertType, a.severity, a.affectedResource))
      = [(AlertType.disk_full, Severity.critical, "system-disk")])
    ∧ ∀ metrics : InfrastructureMetrics,
        (detectAlertsSim nowMs rand ts2 (performHealthChecksSim ts metrics)).all
          (fun a => decide (a.alertType ≠ AlertType.sandbox_disk_full)) = true := by
  refine ⟨rfl, fun metrics => ?_⟩
  rw [List.all_eq_true]
  intro a ha
  simp only [detectAlertsSim, List.mem_filterMap] at ha
  obtain ⟨c, hc, hfc⟩ := ha
  by_cases hst : c.status = HealthStatus.unhealthy
  · rw [if_pos hst] at hfc
    have := createAlertSim_ne_sandbox nowMs rand ts2 c
      (performHealthChecksSim_resource_ne_sandbox ts metrics c hc) a hfc
    simpa using this
  · rw [if_neg hst] at hfc
    exact Option.noConfusion hfc

/-- Sandbox state holding exactly 100 MB of bytes. -/
def sandboxAt100MB : SandboxState :=
  { logs := some [.file "big.log" (100 * 1048576) 0]
    temp := some []
    cache := some []
    data := some [] }

/-- Sandbox state holding exactly 99 MB of bytes. -/
def sandboxAt99MB : SandboxState :=
  { logs := some [.file "big.log" (99 * 1048576) 0]
    temp := some []
    cache := some []
    data := some [] }

/-- C7: `isOverThreshold` is true exactly when the measured size — total
bytes of the tree, unreadable paths counting as 0, rounded to whole
MB — is at least 100; a sandbox of exactly 100 MB is over the threshold
and one of 99 MB is not. -/
theorem c7_threshold_boundary :
    (∀ s : SandboxState, isOverThreshold s = true ↔
      100 ≤ roundBytesToMB (dirSizeBytes s.logs + dirSizeBytes s.temp
        + dirSizeBytes s.cache + dirSizeBytes s.data))
    ∧ isOverThreshold sandboxAt100MB = true
    ∧ isOverThreshold sandboxAt99MB = false := by
  refine ⟨fun s => ?_, by decide, by decide⟩
  simp [isOverThreshold, collectSandboxMetrics, THRESHOLD_MB]

/-- Starting sandbox state for the C2 counterexample: the cache
directory lists a subdirectory before a regular file. -/
def cacheWithSubdir : SandboxState :=
  { logs := some []
    temp := some []
    cache := some [.subdir "nested" 0 [], .file "stale.bin" 1024 500000]
    data := some [.file "protected.json" 64 0] }

/-- C2 counterexample: on a sandbox whose cache directory contains a
subdirectory followed by a regular file, `executeCleanup` leaves that
file in place — unlinking the subdirectory throws, the phase-level catch
fires, and the remaining cache entries survive — refuting the claim for
this starting state (the data file is preserved, as claimed). -/
theorem c2_counterexample :
    (executeCleanup 1000000 cacheWithSubdir).1.cache
      = some [.subdir "nested" 0 [], .file "stale.bin" 1024 500000]
    ∧ (executeCleanup 1000000 cacheWithSubdir).1.data
      = some [.file "protected.json" 64 0] := by
  exact ⟨by decide, by decide⟩

/-- A cache listing made only of regular files is emptied completely. -/
theorem cleanCacheEntries_all_files :
    ∀ l : List FsEntry, l.all (fun e => e.isRegularFile) = true →
      cleanCacheEntries l = []
  | [], _ => rfl
  | .file n sz m :: es, h => by
      simp only [List.all_cons, Bool.and_eq_true] at h
      simp [cleanCacheEntries, cleanCacheEntries_all_files es h.2]
  | .subdir n m cs :: es, h => by
      simp [List.all_cons, FsEntry.isRegularFile] at h
  | .unreadable n :: es, h => by
      simp [List.all_cons, FsEntry.isRegularFile] at h

/-- C2 amended: for every starting sandbox state, `executeCleanup`
leaves the `data` directory untouched (so every file under `data`
before the run still exists unchanged — this clause holds
unconditionally); and provided every entry directly under `cache` is a
regular file, every file directly under `cache` is deleted (the listing
becomes empty, or stays missing). The file-only proviso on the cache
clause alone is forced by the counterexample: a subdirectory in the
cache listing makes the deletion loop throw and the remaining files
survive. -/
theorem c2_amended_cleanup_frame (nowMs : Int) (s : SandboxState) :
    (executeCleanup nowMs s).1.data = s.data
    ∧ ((s.cache.getD []).all (fun e => e.isRegularFile) = true →
        (executeCleanup nowMs s).1.cache = s.cache.map (fun _ => ([] : List FsEntry))) := by
  refine ⟨rfl, fun h => ?_⟩
  cases hc : s.cache with
  | none => simp [executeCleanup, hc]
  | some l =>
      rw [hc] at h
      simp [executeCleanup, hc, cleanCacheEntries_all_files l (by simpa using h)]

/-- Starting sandbox state for the C2 witness: every cache entry is a
regular file; the data directory holds a protected file. -/
def allFilesSandbox : SandboxState :=
  { logs := some [.file "a.log" 2048 10000, .file "b.log" 2048 20000]
    temp := some [.file "t.tmp" 512 0]
    cache := some [.file "c1.bin" 4096 0, .file "c2.bin" 4096 100]
    data := some [.file "keep.json" 128 0] }

/-- Witness for the amended C2 at a concrete all-files sandbox state. -/
theorem c2_witness :
    (executeCleanup 50000 allFilesSandbox).1.data = allFilesSandbox.data
    ∧ (executeCleanup 50000 allFilesSandbox).1.cache
      = allFilesSandbox.cache.map (fun _ => ([] : List FsEntry)) :=
  ⟨(c2_amended_cleanup_frame 50000 allFilesSandbox).1,
   (c2_amended_cleanup_frame 50000 allFilesSandbox).2 (by decide)⟩

/-- C4: for every incident id with no snapshot stored under
`rollback-snapshots`, `executeRollback` fails with the `RollbackError`
carrying the no-snapshot message — the not-found failure the spec
describes — and returns the store unchanged: in particular nothing is
appended to `rollback-history`. -/
theorem c4_rollback_requires_snapshot (stepFails : Nat → Bool) (verifyOk : Bool)
    (nowMs : Nat) (nowIso : String) (durationMs : Nat) (st : RollbackStore)
    (incidentId reason : String)
    (h : st.snapshots.lookup incidentId = none) :
    executeRollback stepFails verifyOk nowMs nowIso durationMs st incidentId reason
      = (Except.error
          { incidentId := incidentId
            reason := rollbackErrorMessage incidentId "No rollback snapshot found" },
         st) := by
  simp [executeRollback, h]

/-- Witness for C4 at a concrete empty rollback store. -/
theorem c4_witness :
    executeRollback (fun _ => false) true 1700000000000 "2025-01-01T00:00:02.000Z" 450
        { snapshots := [], history := [] } "inc-404" "Manual rollback requested"
      = (Except.error
          { incidentId := "inc-404"
            reason := rollbackErrorMessage "inc-404" "No rollback snapshot found" },
         { snapshots := [], history := [] }) :=
  c4_rollback_requires_snapshot (fun _ => false) true 1700000000000
    "2025-01-01T00:00:02.000Z" 450 { snapshots := [], history := [] }
    "inc-404" "Manual rollback requested" rfl

/-- Overwriting an existing key with `setAssoc` makes `lookup` return
the new value (overwrite branch). -/
theorem lookup_map_set (k : String) (v : PendingApproval) :
    ∀ l : List (String × PendingApproval), l.any (fun p => p.1 == k) = true →
      (l.map (fun p => if p.1 == k then (k, v) else p)).lookup k = some v
  | [], h => by simp at h
  | (k', w) :: l, h => by
      by_cases hk : k' = k
      · subst hk
        simp [List.lookup_cons]
      · have h' : l.any (fun p => p.1 == k) = true := by
          simpa [List.any_cons, hk] using h
        have hb : (k == k') = false := beq_eq_false_iff_ne.mpr (Ne.symm hk)
        simpa [List.lookup_cons, hk, hb] using lookup_map_set k v l h'

/-- Appending a fresh key with `setAssoc` makes `lookup` return the new
value (insert branch). -/
theorem lookup_append_new (k : String) (v : PendingApproval) :
    ∀ l : List (String × PendingApproval), l.any (fun p => p.1 == k) = false →
      (l ++ [(k, v)]).lookup k = some v
  | [], _ => by simp [List.lookup_cons]
  | (k', w) :: l, h => by
      simp only [List.any_cons, Bool.or_eq_false_iff] at h
      have hk : ¬(k' = k) := by simpa using h.1
      have hb : (k == k') = false := beq_eq_false_iff_ne.mpr (Ne.symm hk)
      simpa [List.lookup_cons, hb] using lookup_append_new k v l h.2

/-- `state.set` then `state.get` on the same key returns the written
record. -/
theorem lookup_setAssoc_self (l : List (String × PendingApproval)) (k : String)
    (v : PendingApproval) : (setAssoc l k v).lookup k = some v := by
  unfold setAssoc
  by_cases h : l.any (fun p => p.1 == k) = true
  · rw [if_pos h]
    exact lookup_map_set k v l h
  · rw [if_neg h]
    exact lookup_append_new k v l (by simpa using Bool.of_not_eq_true h)

/-- C10: in the GET manual-approval handler, when the action is approve
with an execute action requested (here under an admin credential, which
every execute value accepts) and the executed action reports failure,
the approval still proceeds: the handler answers 200, the pending
approval is rewritten to status approved with the failed execution
result attached, and `fix.approved` is still emitted. -/
theorem c10_failed_execution_still_approves (execOutcome : ExecResult)
    (now : String) (st : ApprovalStore) (q : ApprovalQuery)
    (p : PendingApproval) (r : RCAResult)
    (hp : st.approvalPending.lookup q.incident = some p)
    (hpend : p.status = "pending")
    (hr : st.rcaResults.lookup q.incident = some r)
    (hact : q.action = "approve")
    (hex : q.execute.getD "" ≠ "")
    (hfail : execOutcome.success = false) :
    (manualApprovalGet execOutcome (some UserRole.admin) now st q).status = 200
    ∧ (manualApprovalGet execOutcome (some UserRole.admin) now st q).emitted
      = [ApprovalEmit.fixApproved q.incident "interactive"
          (q.approver.getD "slack-interactive") now r (some execOutcome)
          (q.execute.getD "")]
    ∧ ((manualApprovalGet execOutcome
          (some UserRole.admin) now st q).store.approvalPending.lookup q.incident)
      = some { p with
          status := "approved"
          approver := some (q.approver.getD "slack-interactive")
          approvedAt := some now
          executionResult := some execOutcome
          actionType := some (q.execute.getD "") } := by
  simp [manualApprovalGet, hp, hr, hpend, hact, hex, lookup_setAssoc_self]

/-- Pending approval record for the C10 witness. -/
def c10Pending : PendingApproval :=
  { incidentId := "inc-010"
    status := "pending"
    requestedAt := "2025-01-01T00:00:03.000Z"
    riskLevel := .medium
    rcaSummary := "High memory usage"
    proposedFix := "Restart the api-server container"
    approver := none
    approvedAt := none
    executionResult := none
    actionType := none }

/-- Stored RCA result for the C10 witness. -/
def c10Rca : RCAResult :=
  { incidentId := "inc-010"
    summary := "High memory usage"
    rootCause := "Leaking worker"
    proposedFix := "Restart the api-server container"
    riskLevel := .medium
    estimatedImpact := "Medium"
    timestamp := "2025-01-01T00:00:03.000Z"
    metadata := none }

/-- Concrete store for the C10 witness: one pending approval and one
stored RCA result for incident inc-010. -/
def c10Store : ApprovalStore :=
  { approvalPending := [("inc-010", c10Pending)]
    rcaResults := [("inc-010", c10Rca)] }

/-- Query for the C10 witness: approve with a restart-container execute
action. -/
def c10Query : ApprovalQuery :=
  { incident := "inc-010"
    action := "approve"
    execute := some "restart_container"
    container := some "api-server"
    approver := some "ops-jane" }

/-- Failed execution result for the C10 witness. -/
def c10FailedExec : ExecResult :=
  { success := false
    message := "Action failed: restart timed out"
    logs := ["restarting api-server", "timeout after 30s"] }

/-- Witness for C10 at a concrete failed execution. -/
theorem c10_witness :
    (manualApprovalGet c10FailedExec (some UserRole.admin) "t3" c10Store c10Query).status = 200
    ∧ (manualApprovalGet c10FailedExec (some UserRole.admin) "t3" c10Store c10Query).emitted
      = [ApprovalEmit.fixApproved c10Query.incident "interactive"
          (c10Query.approver.getD "slack-interactive") "t3" c10Rca
          (some c10FailedExec) (c10Query.execute.getD "")]
    ∧ ((manualApprovalGet c10FailedExec
          (some UserRole.admin) "t3" c10Store c10Query).store.approvalPending.lookup
            c10Query.incident)
      = some { c10Pending with
          status := "approved"
          approver := some (c10Query.approver.getD "slack-interactive")
          approvedAt := some "t3"
          executionResult := some c10FailedExec
          actionType := some (c10Query.execute.getD "") } :=
  c10_failed_execution_still_approves c10FailedExec "t3" c10Store c10Query
    c10Pending c10Rca rfl rfl rfl rfl (by decide) rfl

end Sentinal

